import Mathlib

/-!
# Verification of the github-insight reactive state layer

Shallow embedding of `src/app/core/services/github.service.ts` (the
`GithubService` profile/repository lookup coordinators and the
`ThemeService` theme-preference service) together with the data model of
`src/app/core/models`.  The embedding follows the TypeScript source: each
`signal.set` call becomes a whole-record replacement of a `SearchState`
record, HTTP requests are reified as values, and HTTP completions are
events of a step function on the service state.
-/

set_option maxHeartbeats 1000000

/-- `src/app/core/models/search-state.model.ts` — generic request state
record: `data : T | null`, `loading : boolean`, `error : string | null`. -/
structure SearchState (T : Type) where
  data : Option T
  loading : Bool
  error : Option String
deriving DecidableEq, Repr

/-- `src/app/core/models/github-user.model.ts` — shape of the
`GET /users/{username}` payload. -/
structure GithubUser where
  login : String
  id : Nat
  avatar_url : String
  html_url : String
  name : Option String
  company : Option String
  blog : Option String
  location : Option String
  email : Option String
  bio : Option String
  public_repos : Nat
  followers : Nat
  following : Nat
  created_at : String
deriving DecidableEq, Repr

/-- `src/app/core/models/github-repo.model.ts` — shape of one element of
the `GET /users/{username}/repos` payload. -/
structure GithubRepo where
  id : Nat
  name : String
  full_name : String
  html_url : String
  description : Option String
  stargazers_count : Nat
  watchers_count : Nat
  forks_count : Nat
  language : Option String
  updated_at : String
deriving DecidableEq, Repr

/-- `src/app/core/models/github-error.model.ts` — GitHub API error payload. -/
structure GithubError where
  message : String
  documentation_url : String
deriving DecidableEq, Repr

/-- Whitespace predicate used by JavaScript's `String.prototype.trim`. -/
def jsWhitespace (c : Char) : Bool := c.isWhitespace

/-- JavaScript `String.prototype.trim`: drop whitespace from both ends. -/
def jsTrim (s : String) : String :=
  ⟨((s.data.dropWhile jsWhitespace).reverse.dropWhile jsWhitespace).reverse⟩

/-- Error message literal of `GithubService.searchUser` /
`GithubService.getUserRepos` for an empty username. -/
def emptyUsernameError : String := "El nombre de usuario no puede estar vacío"

/-- 404 message of `GithubService.searchUser`; interpolates the raw
(untrimmed) `username` argument. -/
def userNotFoundError (username : String) : String :=
  "Usuario \"" ++ username ++ "\" no encontrado"

/-- 403 message of `GithubService.searchUser`. -/
def rateLimitError : String := "Límite de solicitudes excedido. Intenta más tarde"

/-- Status-0 message of `GithubService.searchUser`. -/
def connectionError : String := "Error de conexión. Verifica tu internet"

/-- Generic fallback message of `GithubService.searchUser`. -/
def genericUserError : String := "Error al buscar usuario"

/-- 404 message of `GithubService.getUserRepos`. -/
def reposNotFoundError : String := "Repositorios no encontrados"

/-- 403 message of `GithubService.getUserRepos`. -/
def reposRateLimitError : String :=
  "Límite de solicitudes excedido al cargar repositorios"

/-- Status-0 message of `GithubService.getUserRepos`. -/
def reposConnectionError : String := "Error de conexión al cargar repositorios"

/-- Generic fallback message of `GithubService.getUserRepos`. -/
def genericReposError : String := "Error al cargar repositorios"

/-- `githubError?.message || fallback`: JavaScript `||` treats the empty
string as falsy, and `?.` propagates an absent payload. -/
def payloadMessageOr (payload : Option GithubError) (fallback : String) : String :=
  match payload with
  | some e => if e.message = "" then fallback else e.message
  | none => fallback

/-- The `catchError` branch of `GithubService.searchUser`: classify an
`HttpErrorResponse` (transport `status`, optional GitHub error body) into
the stored error message.  `username` is the raw argument captured by the
closure. -/
def classifyUserError (username : String) (status : Nat)
    (payload : Option GithubError) : String :=
  if status = 404 then userNotFoundError username
  else if status = 403 then rateLimitError
  else if status = 0 then connectionError
  else payloadMessageOr payload genericUserError

/-- The `catchError` branch of `GithubService.getUserRepos`. -/
def classifyReposError (status : Nat) (payload : Option GithubError) : String :=
  if status = 404 then reposNotFoundError
  else if status = 403 then reposRateLimitError
  else if status = 0 then reposConnectionError
  else payloadMessageOr payload genericReposError

/-- Query parameters of the repository request
(`sort=updated`, `direction=desc`, `per_page=30`). -/
structure ReposParams where
  sort : String
  direction : String
  per_page : String
deriving DecidableEq, Repr

/-- An outbound HTTP request issued by the service, carrying the handle
substituted into the URL (already trimmed, as in the source). -/
inductive HttpRequest where
  | getUser (handle : String)
  | getRepos (handle : String) (params : ReposParams)
deriving DecidableEq, Repr

/-- Outcome of an HTTP request: a success payload, or an
`HttpErrorResponse` with transport status and optional GitHub error body. -/
inductive HttpResult (T : Type) where
  | success (value : T)
  | failure (status : Nat) (payload : Option GithubError)
deriving DecidableEq, Repr

/-- Result of the synchronous phase of `searchUser` / `getUserRepos`:
the single state record written (`signal.set`), and the outbound request
issued, if any. -/
structure SyncResult (T : Type) where
  write : SearchState T
  request : Option HttpRequest
deriving DecidableEq, Repr

/-- `GithubService` instance state: the two private signals. -/
structure GithubService where
  searchState : SearchState GithubUser
  reposState : SearchState (List GithubRepo)
deriving DecidableEq, Repr

namespace GithubService

/-- Signal values at construction: both records are all-null / false. -/
def initial : GithubService :=
  { searchState := { data := none, loading := false, error := none }
    reposState := { data := none, loading := false, error := none } }

/-- Synchronous phase of `GithubService.searchUser`: the guard
`!username || username.trim().length === 0` short-circuits with the
validation error and no request; otherwise the loading record is set and
one `GET /users/{username.trim()}` request is issued. -/
def searchUser (username : String) : SyncResult GithubUser :=
  if username = "" ∨ (jsTrim username).length = 0 then
    { write := { data := none, loading := false, error := some emptyUsernameError }
      request := none }
  else
    { write := { data := none, loading := true, error := none }
      request := some (HttpRequest.getUser (jsTrim username)) }

/-- Synchronous phase of `GithubService.getUserRepos`: same guard, then
the repos loading record and one
`GET /users/{username.trim()}/repos?sort=updated&direction=desc&per_page=30`
request. -/
def getUserRepos (username : String) : SyncResult (List GithubRepo) :=
  if username = "" ∨ (jsTrim username).length = 0 then
    { write := { data := none, loading := false, error := some emptyUsernameError }
      request := none }
  else
    { write := { data := none, loading := true, error := none }
      request := some (HttpRequest.getRepos (jsTrim username)
        { sort := "updated", direction := "desc", per_page := "30" }) }

/-- Settlement of the repos request (`tap` / `catchError` of
`getUserRepos`). -/
def resolveReposResponse (res : HttpResult (List GithubRepo)) :
    SearchState (List GithubRepo) :=
  match res with
  | .success repos => { data := some repos, loading := false, error := none }
  | .failure status payload =>
      { data := none, loading := false, error := some (classifyReposError status payload) }

/-- `GithubService.clearSearch`: both signals are reset to the all-null /
false record. -/
def clearSearch (_s : GithubService) : GithubService :=
  { searchState := { data := none, loading := false, error := none }
    reposState := { data := none, loading := false, error := none } }

/-- Read-only projection `user`. -/
def user (s : GithubService) : Option GithubUser := s.searchState.data

/-- Read-only projection `isLoading`. -/
def isLoading (s : GithubService) : Bool := s.searchState.loading

/-- Read-only projection `error`. -/
def error (s : GithubService) : Option String := s.searchState.error

/-- Read-only projection `repos`. -/
def repos (s : GithubService) : Option (List GithubRepo) := s.reposState.data

/-- Read-only projection `isLoadingRepos`. -/
def isLoadingRepos (s : GithubService) : Bool := s.reposState.loading

/-- Read-only projection `reposError`. -/
def reposError (s : GithubService) : Option String := s.reposState.error

/-- Externally observable events that replace signal state: a `searchUser`
call, a completion of the profile request (carrying the `username`
captured by the closure), a direct `getUserRepos` call, a completion of
the repos request, and a `clearSearch` call. -/
inductive Event where
  | search (username : String)
  | userResponse (username : String) (res : HttpResult GithubUser)
  | reposCall (username : String)
  | reposResponse (res : HttpResult (List GithubRepo))
  | clear
deriving DecidableEq, Repr

/-- One state transition of the service.  On profile success (`tap`), the
`searchState` success record is set and `getUserRepos(user.login)` runs
synchronously, writing `reposState`; on profile failure (`catchError`)
only `searchState` is written. -/
def stepService (s : GithubService) (e : Event) : GithubService :=
  match e with
  | .search u => { s with searchState := (searchUser u).write }
  | .userResponse u res =>
      match res with
      | .success gu =>
          { searchState := { data := some gu, loading := false, error := none }
            reposState := (getUserRepos gu.login).write }
      | .failure status payload =>
          { s with searchState :=
              { data := none, loading := false,
                error := some (classifyUserError u status payload) } }
  | .reposCall u => { s with reposState := (getUserRepos u).write }
  | .reposResponse res => { s with reposState := resolveReposResponse res }
  | .clear => clearSearch s

/-- The service state after a sequence of events, starting from
construction. -/
def runService (events : List Event) : GithubService :=
  events.foldl stepService initial

end GithubService

/-- `ThemeService.Theme`: the two theme literals. -/
inductive Theme where
  | dark
  | light
deriving DecidableEq, Repr

/-- The string literal stored / applied for a theme value. -/
def themeStr : Theme → String
  | .dark => "dark"
  | .light => "light"

/-- `document.body` as observed by `ThemeService`: the `data-theme`
attribute and the class list.  `classList.add` inserts only when absent;
`classList.remove` removes every occurrence. -/
structure ThemeDoc where
  dataTheme : Option String
  classes : List String
deriving DecidableEq, Repr

/-- `classList.add`. -/
def addClass (cs : List String) (c : String) : List String :=
  if c ∈ cs then cs else cs ++ [c]

/-- `classList.remove`. -/
def removeClass (cs : List String) (c : String) : List String :=
  cs.filter (fun x => x ≠ c)

/-- `ThemeService.applyThemeToDocument`: set `data-theme`, then add the
marker class of the current theme and remove the other one. -/
def applyThemeToDocument (body : ThemeDoc) (theme : Theme) : ThemeDoc :=
  let body := { body with dataTheme := some (themeStr theme) }
  if theme = .dark then
    { body with classes := removeClass (addClass body.classes "dark-theme") "light-theme" }
  else
    { body with classes := removeClass (addClass body.classes "light-theme") "dark-theme" }

/-- `ThemeService.loadThemeFromStorage`: accept only the two exact
literals; anything else (absent value, other string, storage read
failure) yields `none`. -/
def loadThemeFromStorage (stored : Option String) : Option Theme :=
  match stored with
  | some "dark" => some Theme.dark
  | some "light" => some Theme.light
  | _ => none

/-- `ThemeService.DEFAULT_THEME`. -/
def DEFAULT_THEME : Theme := .dark

/-- `ThemeService.getInitialTheme`: persisted value if valid, else the
ambient `prefers-color-scheme` signal if available (`prefersDark`), else
the default. -/
def getInitialTheme (stored : Option String) (prefersDark : Option Bool) : Theme :=
  match loadThemeFromStorage stored with
  | some t => t
  | none =>
      match prefersDark with
      | some b => if b then .dark else .light
      | none => DEFAULT_THEME

/-- `ThemeService` instance state together with the external resources it
acts on: the `themeSignal` value, the document body, the persisted
storage slot, and the log of storage writes performed (one entry per
`saveThemeToStorage` call, recording the value written). -/
structure ThemeService where
  themeSignal : Theme
  body : ThemeDoc
  storage : Option String
  storageWrites : List Theme
deriving DecidableEq, Repr

namespace ThemeService

/-- Modelled from the spec: the reactive reaction registered in the
`ThemeService` constructor (an Angular `effect`, whose scheduling
machinery is not part of this repository) is, per the spec, a
side-effecting hook "invoked synchronously after every state
replacement": it applies the current theme to the document and persists
it (`applyThemeToDocument` + `saveThemeToStorage`). -/
def runThemeEffect (s : ThemeService) : ThemeService :=
  { s with
    body := applyThemeToDocument s.body s.themeSignal
    storage := some (themeStr s.themeSignal)
    storageWrites := s.storageWrites ++ [s.themeSignal] }

/-- `ThemeService` constructor: initialize `themeSignal` via
`getInitialTheme`, apply the initial theme to the document directly, and
run the registered reaction. -/
def construct (stored : Option String) (prefersDark : Option Bool)
    (body : ThemeDoc) : ThemeService :=
  let t := getInitialTheme stored prefersDark
  runThemeEffect
    { themeSignal := t
      body := applyThemeToDocument body t
      storage := stored
      storageWrites := [] }

/-- `ThemeService.setTheme`: `themeSignal.set(theme)` followed by the
registered reaction. -/
def setTheme (s : ThemeService) (theme : Theme) : ThemeService :=
  runThemeEffect { s with themeSignal := theme }

/-- `ThemeService.toggleTheme`: read the current value, compute its
complement, set it. -/
def toggleTheme (s : ThemeService) : ThemeService :=
  let newTheme : Theme := if s.themeSignal = .dark then .light else .dark
  setTheme s newTheme

/-- `ThemeService.isDarkTheme`. -/
def isDarkTheme (s : ThemeService) : Bool := s.themeSignal = .dark

/-- `ThemeService.isLightTheme`. -/
def isLightTheme (s : ThemeService) : Bool := s.themeSignal = .light

end ThemeService

/-! ## Request-state phases and the reachability invariant -/

/-- Idle phase: the all-null / false record (initial / cleared). -/
def isIdle {T : Type} (st : SearchState T) : Bool :=
  st.data.isNone && !st.loading && st.error.isNone

/-- Loading phase: `loading` with no data and no error. -/
def isLoadingPhase {T : Type} (st : SearchState T) : Bool :=
  st.data.isNone && st.loading && st.error.isNone

/-- Settled-with-data phase. -/
def settledWithData {T : Type} (st : SearchState T) : Bool :=
  st.data.isSome && !st.loading && st.error.isNone

/-- Settled-with-error phase. -/
def settledWithError {T : Type} (st : SearchState T) : Bool :=
  st.data.isNone && !st.loading && st.error.isSome

/-- Number of the four phases a record satisfies. -/
def phaseCount {T : Type} (st : SearchState T) : Nat :=
  (if isIdle st then 1 else 0) + (if isLoadingPhase st then 1 else 0) +
    (if settledWithData st then 1 else 0) + (if settledWithError st then 1 else 0)

/-- Invariant of the service: both signal records are in exactly one of
the four phases. -/
def PhaseInv (s : GithubService) : Prop :=
  phaseCount s.searchState = 1 ∧ phaseCount s.reposState = 1

theorem searchUser_write_phase (u : String) :
    phaseCount (GithubService.searchUser u).write = 1 := by
  unfold GithubService.searchUser
  split <;>
    simp [phaseCount, isIdle, isLoadingPhase, settledWithData, settledWithError]

theorem getUserRepos_write_phase (u : String) :
    phaseCount (GithubService.getUserRepos u).write = 1 := by
  unfold GithubService.getUserRepos
  split <;>
    simp [phaseCount, isIdle, isLoadingPhase, settledWithData, settledWithError]

theorem stepService_phase (s : GithubService) (hs : PhaseInv s)
    (e : GithubService.Event) : PhaseInv (GithubService.stepService s e) := by
  obtain ⟨h1, h2⟩ := hs
  cases e with
  | search u =>
      exact ⟨searchUser_write_phase u, h2⟩
  | userResponse u res =>
      cases res with
      | success gu =>
          refine ⟨?_, getUserRepos_write_phase gu.login⟩
          simp [GithubService.stepService, phaseCount, isIdle, isLoadingPhase,
            settledWithData, settledWithError]
      | failure status payload =>
          refine ⟨?_, h2⟩
          simp [GithubService.stepService, phaseCount, isIdle, isLoadingPhase,
            settledWithData, settledWithError]
  | reposCall u =>
      exact ⟨h1, getUserRepos_write_phase u⟩
  | reposResponse res =>
      refine ⟨h1, ?_⟩
      cases res <;>
        simp [GithubService.stepService, GithubService.resolveReposResponse,
          phaseCount, isIdle, isLoadingPhase, settledWithData, settledWithError]
  | clear =>
      constructor <;>
        simp [GithubService.stepService, GithubService.clearSearch, phaseCount,
          isIdle, isLoadingPhase, settledWithData, settledWithError]

theorem runService_phase (events : List GithubService.Event) :
    PhaseInv (GithubService.runService events) := by
  have key : ∀ (es : List GithubService.Event) (s : GithubService),
      PhaseInv s → PhaseInv (es.foldl GithubService.stepService s) := by
    intro es
    induction es with
    | nil => intro s hs; exact hs
    | cons e es ih => intro s hs; exact ih _ (stepService_phase s hs e)
  exact key events GithubService.initial ⟨by decide, by decide⟩

/-! ## Properties of `jsTrim` -/

theorem jsTrim_data (s : String) :
    (jsTrim s).data =
      ((s.data.dropWhile jsWhitespace).reverse.dropWhile jsWhitespace).reverse := rfl

/-- The trimmed string occurs inside the original string: the original is
leading whitespace, then the trimmed core, then trailing whitespace. -/
theorem jsTrim_decomp (s : String) :
    s.data = s.data.takeWhile jsWhitespace ++ (jsTrim s).data ++
      ((s.data.dropWhile jsWhitespace).reverse.takeWhile jsWhitespace).reverse := by
  have h1 : (jsTrim s).data ++
      ((s.data.dropWhile jsWhitespace).reverse.takeWhile jsWhitespace).reverse
      = s.data.dropWhile jsWhitespace := by
    rw [jsTrim_data, ← List.reverse_append, List.takeWhile_append_dropWhile,
      List.reverse_reverse]
  rw [List.append_assoc, h1, List.takeWhile_append_dropWhile]

/-- A string all of whose characters are whitespace trims to the empty
string. -/
theorem jsTrim_eq_empty_of_whitespace (s : String)
    (h : ∀ c ∈ s.data, jsWhitespace c = true) : jsTrim s = "" := by
  have h1 : s.data.dropWhile jsWhitespace = [] :=
    List.dropWhile_eq_nil_iff.mpr h
  unfold jsTrim
  rw [h1]
  rfl

/-- A string of length zero is the empty string. -/
theorem string_eq_empty_of_length_zero (s : String) (h : s.length = 0) :
    s = "" := by
  cases s with
  | mk l =>
      cases l with
      | nil => rfl
      | cons c cs => simp [String.length] at h

/-- The 404 message of `searchUser` contains the trimmed queried handle
as a substring (it interpolates the raw username, which contains its own
trimmed core). -/
theorem userNotFoundError_contains_handle (u : String) :
    ∃ a b, (userNotFoundError u).data = a ++ (jsTrim u).data ++ b := by
  refine ⟨"Usuario \"".data ++ u.data.takeWhile jsWhitespace,
    ((u.data.dropWhile jsWhitespace).reverse.takeWhile jsWhitespace).reverse ++
      "\" no encontrado".data, ?_⟩
  have hd : (userNotFoundError u).data =
      "Usuario \"".data ++ u.data ++ "\" no encontrado".data := rfl
  rw [hd]
  conv_lhs => rw [jsTrim_decomp u]
  simp [List.append_assoc]

/-- A record in exactly one phase that is loading has no data and no
error. -/
theorem loading_clear_of_phase {T : Type} (st : SearchState T)
    (hp : phaseCount st = 1) (hl : st.loading = true) :
    st.data = none ∧ st.error = none := by
  rcases st with ⟨d, l, er⟩
  subst hl
  cases d <;> cases er <;>
    simp_all [phaseCount, isIdle, isLoadingPhase, settledWithData, settledWithError]

/-! ## Claims C1 and C2 -/

/-- C1: in every reachable state of the profile coordinator and of the
repository coordinator, `loading = true` implies that `data` and `error`
are both absent. -/
theorem loading_excludes_data_and_error (events : List GithubService.Event) :
    ((GithubService.runService events).searchState.loading = true →
      (GithubService.runService events).searchState.data = none ∧
      (GithubService.runService events).searchState.error = none) ∧
    ((GithubService.runService events).reposState.loading = true →
      (GithubService.runService events).reposState.data = none ∧
      (GithubService.runService events).reposState.error = none) := by
  obtain ⟨h1, h2⟩ := runService_phase events
  exact ⟨fun hl => loading_clear_of_phase _ h1 hl,
    fun hl => loading_clear_of_phase _ h2 hl⟩

/-- C1 witness: after `searchUser "octocat"` the profile record is
loading, and indeed carries no data and no error. -/
theorem loading_excludes_data_and_error_witness :
    (GithubService.runService [GithubService.Event.search "octocat"]).searchState.data
      = none ∧
    (GithubService.runService [GithubService.Event.search "octocat"]).searchState.error
      = none :=
  (loading_excludes_data_and_error [GithubService.Event.search "octocat"]).1
    (by decide)

/-- The three-way phase disjunction exactly as claim C2 states it:
loading, or settled with data, or settled with error.  (The three
alternatives are pairwise exclusive for any record.) -/
def exactlyOneOfThree {T : Type} (st : SearchState T) : Prop :=
  st.loading = true ∨
    (st.loading = false ∧ st.data.isSome = true ∧ st.error = none) ∨
    (st.loading = false ∧ st.error.isSome = true ∧ st.data = none)

/-- C2 counterexample: the initial state at construction (the empty event
sequence) satisfies none of the three alternatives — it is not loading
and has neither data nor error. -/
theorem initial_state_violates_three_phase :
    ¬ exactlyOneOfThree
      (GithubService.runService ([] : List GithubService.Event)).searchState := by
  intro h
  rcases h with h | h | h <;>
    simp_all [GithubService.runService, GithubService.initial, exactlyOneOfThree]

/-- C2 (amended): in every reachable state of either coordinator,
exactly one of the four phases {idle (all-absent, not loading), loading,
settled-with-data, settled-with-error} holds; the idle phase (the
initial / cleared record) is the only addition forced by the
counterexample. -/
theorem reachable_exactly_one_phase (events : List GithubService.Event) :
    phaseCount (GithubService.runService events).searchState = 1 ∧
    phaseCount (GithubService.runService events).reposState = 1 :=
  runService_phase events

/-! ## Claims C3, C4, C5 -/

/-- C3: a failed profile fetch settles the profile coordinator to
`{absent, false, classified message}`, where 404 yields the not-found
message containing the trimmed queried handle, 403 yields the rate-limit
message, status 0 yields the connectivity message, and any other status
yields the error payload's message when it is a present non-empty string,
else the generic failure message. -/
theorem searchUser_failure_classification (s : GithubService) (username : String)
    (status : Nat) (payload : Option GithubError)
    (_h : jsTrim username ≠ "") :
    (GithubService.stepService s
        (.userResponse username (.failure status payload))).searchState =
      { data := none, loading := false,
        error := some (classifyUserError username status payload) } ∧
    (status = 404 →
      classifyUserError username status payload = userNotFoundError username ∧
      ∃ a b, (classifyUserError username status payload).data =
        a ++ (jsTrim username).data ++ b) ∧
    (status = 403 → classifyUserError username status payload = rateLimitError) ∧
    (status = 0 → classifyUserError username status payload = connectionError) ∧
    (status ≠ 404 → status ≠ 403 → status ≠ 0 →
      classifyUserError username status payload =
        payloadMessageOr payload genericUserError) := by
  refine ⟨rfl, ?_, ?_, ?_, ?_⟩
  · intro h404
    subst h404
    refine ⟨rfl, ?_⟩
    have : classifyUserError username 404 payload = userNotFoundError username := rfl
    rw [this]
    exact userNotFoundError_contains_handle username
  · intro h403
    subst h403
    rfl
  · intro h0
    subst h0
    rfl
  · intro h404 h403 h0
    simp [classifyUserError, h404, h403, h0]

/-- C3 witness: a 404 for `"octocat"` settles to the not-found message,
which contains the handle. -/
theorem searchUser_failure_classification_witness :
    (GithubService.stepService GithubService.initial
        (.userResponse "octocat" (.failure 404 none))).searchState =
      { data := none, loading := false,
        error := some (classifyUserError "octocat" 404 none) } ∧
    (404 = 404 →
      classifyUserError "octocat" 404 none = userNotFoundError "octocat" ∧
      ∃ a b, (classifyUserError "octocat" 404 none).data =
        a ++ (jsTrim "octocat").data ++ b) ∧
    (404 = 403 → classifyUserError "octocat" 404 none = rateLimitError) ∧
    (404 = 0 → classifyUserError "octocat" 404 none = connectionError) ∧
    (404 ≠ 404 → 404 ≠ 403 → 404 ≠ 0 →
      classifyUserError "octocat" 404 none =
        payloadMessageOr none genericUserError) :=
  searchUser_failure_classification GithubService.initial "octocat" 404 none
    (by decide)

/-- C4: for an input that is empty or whitespace-only, `searchUser`
performs a single synchronous write of the validation-error record,
issues no request, and the one record written is not loading. -/
theorem searchUser_empty_input (username : String)
    (h : ∀ c ∈ username.data, jsWhitespace c = true) :
    GithubService.searchUser username =
      { write := { data := none, loading := false, error := some emptyUsernameError }
        request := none } ∧
    (GithubService.searchUser username).write.loading = false ∧
    ∀ s : GithubService,
      (GithubService.stepService s (.search username)).searchState =
        { data := none, loading := false, error := some emptyUsernameError } := by
  have ht : jsTrim username = "" := jsTrim_eq_empty_of_whitespace username h
  have hg : username = "" ∨ (jsTrim username).length = 0 := Or.inr (by rw [ht]; rfl)
  have hs : GithubService.searchUser username =
      { write := { data := none, loading := false, error := some emptyUsernameError }
        request := none } := by
    unfold GithubService.searchUser
    rw [if_pos hg]
  refine ⟨hs, by rw [hs], fun s => ?_⟩
  show (GithubService.searchUser username).write = _
  rw [hs]

/-- C4 witness: the whitespace-only input `"  "`. -/
theorem searchUser_empty_input_witness :
    GithubService.searchUser "  " =
      { write := { data := none, loading := false, error := some emptyUsernameError }
        request := none } ∧
    (GithubService.searchUser "  ").write.loading = false ∧
    ∀ s : GithubService,
      (GithubService.stepService s (.search "  ")).searchState =
        { data := none, loading := false, error := some emptyUsernameError } :=
  searchUser_empty_input "  " (by decide)

/-- C5: for a username that is non-empty after trimming, `searchUser`
synchronously writes the loading record `{absent, true, absent}` and
issues exactly one profile request, for the trimmed handle. -/
theorem searchUser_nonempty_input (username : String)
    (h : jsTrim username ≠ "") :
    GithubService.searchUser username =
      { write := { data := none, loading := true, error := none }
        request := some (HttpRequest.getUser (jsTrim username)) } ∧
    ∀ s : GithubService,
      (GithubService.stepService s (.search username)).searchState =
        { data := none, loading := true, error := none } := by
  have hg : ¬(username = "" ∨ (jsTrim username).length = 0) := by
    rintro (h1 | h2)
    · exact h (by rw [h1]; rfl)
    · exact h (string_eq_empty_of_length_zero _ h2)
  have hs : GithubService.searchUser username =
      { write := { data := none, loading := true, error := none }
        request := some (HttpRequest.getUser (jsTrim username)) } := by
    unfold GithubService.searchUser
    rw [if_neg hg]
  refine ⟨hs, fun s => ?_⟩
  show (GithubService.searchUser username).write = _
  rw [hs]

/-- C5 witness: the handle `"octocat"`. -/
theorem searchUser_nonempty_input_witness :
    GithubService.searchUser "octocat" =
      { write := { data := none, loading := true, error := none }
        request := some (HttpRequest.getUser (jsTrim "octocat")) } ∧
    ∀ s : GithubService,
      (GithubService.stepService s (.search "octocat")).searchState =
        { data := none, loading := true, error := none } :=
  searchUser_nonempty_input "octocat" (by decide)

/-! ## Claims C6 and C7 -/

/-- C6: `clearSearch` resets the six exposed projections to the
all-absent / false values, and it is idempotent. -/
theorem clearSearch_resets_and_idempotent (s : GithubService) :
    GithubService.user (GithubService.clearSearch s) = none ∧
    GithubService.isLoading (GithubService.clearSearch s) = false ∧
    GithubService.error (GithubService.clearSearch s) = none ∧
    GithubService.repos (GithubService.clearSearch s) = none ∧
    GithubService.isLoadingRepos (GithubService.clearSearch s) = false ∧
    GithubService.reposError (GithubService.clearSearch s) = none ∧
    GithubService.clearSearch (GithubService.clearSearch s) =
      GithubService.clearSearch s :=
  ⟨rfl, rfl, rfl, rfl, rfl, rfl, rfl⟩

/-- C7: a `searchUser` invocation that does not reach profile success
leaves the repository coordinator's record untouched — the synchronous
phase (empty-input short-circuit or loading transition) does not write
`reposState`, nor does a failure completion of any status; `reposState`
is written by the chained `getUserRepos` on profile success and reset by
`clearSearch`. -/
theorem searchUser_repos_frame (s : GithubService) (username : String)
    (status : Nat) (payload : Option GithubError) (gu : GithubUser) :
    (GithubService.stepService s (.search username)).reposState = s.reposState ∧
    (GithubService.stepService s
        (.userResponse username (.failure status payload))).reposState
      = s.reposState ∧
    (GithubService.stepService s
        (.userResponse username (.success gu))).reposState
      = (GithubService.getUserRepos gu.login).write ∧
    (GithubService.stepService s GithubService.Event.clear).reposState =
      { data := none, loading := false, error := none } :=
  ⟨rfl, rfl, rfl, rfl⟩

/-! ## Claims C8, C9, C10 -/

/-- C8: `toggleTheme` flips the theme to its complement, so applying it
twice restores the original value. -/
theorem toggleTheme_involution (s : ThemeService) :
    (s.themeSignal = Theme.dark →
      (ThemeService.toggleTheme s).themeSignal = Theme.light) ∧
    (s.themeSignal = Theme.light →
      (ThemeService.toggleTheme s).themeSignal = Theme.dark) ∧
    (ThemeService.toggleTheme (ThemeService.toggleTheme s)).themeSignal =
      s.themeSignal := by
  rcases s with ⟨t, body, st, w⟩
  cases t <;>
    simp [ThemeService.toggleTheme, ThemeService.setTheme, ThemeService.runThemeEffect]

/-- C8 witness: toggling from `dark` yields `light`. -/
theorem toggleTheme_involution_witness :
    (ThemeService.toggleTheme
      { themeSignal := Theme.dark, body := { dataTheme := none, classes := [] },
        storage := none, storageWrites := [] }).themeSignal = Theme.light :=
  (toggleTheme_involution
    { themeSignal := Theme.dark, body := { dataTheme := none, classes := [] },
      storage := none, storageWrites := [] }).1 rfl

/-- C9: a second `setTheme('light')` changes no observable value — the
signal, the boolean accessors and the stored value are unchanged — yet it
still performs one more persistence write. -/
theorem setTheme_idempotent_value_still_persists (s : ThemeService) :
    (ThemeService.setTheme s Theme.light).themeSignal = Theme.light ∧
    (ThemeService.setTheme (ThemeService.setTheme s Theme.light) Theme.light).themeSignal
      = (ThemeService.setTheme s Theme.light).themeSignal ∧
    ThemeService.isLightTheme
        (ThemeService.setTheme (ThemeService.setTheme s Theme.light) Theme.light)
      = ThemeService.isLightTheme (ThemeService.setTheme s Theme.light) ∧
    ThemeService.isDarkTheme
        (ThemeService.setTheme (ThemeService.setTheme s Theme.light) Theme.light)
      = ThemeService.isDarkTheme (ThemeService.setTheme s Theme.light) ∧
    (ThemeService.setTheme (ThemeService.setTheme s Theme.light) Theme.light).storage
      = (ThemeService.setTheme s Theme.light).storage ∧
    (ThemeService.setTheme (ThemeService.setTheme s Theme.light) Theme.light).storageWrites
      = (ThemeService.setTheme s Theme.light).storageWrites ++ [Theme.light] := by
  refine ⟨rfl, rfl, rfl, rfl, rfl, ?_⟩
  simp [ThemeService.setTheme, ThemeService.runThemeEffect]

/-- The C10 marker invariant: the class matching the current theme is on
the body, the other one is not. -/
def markerInv (s : ThemeService) : Prop :=
  ("dark-theme" ∈ s.body.classes ↔ s.themeSignal = Theme.dark) ∧
  ("light-theme" ∈ s.body.classes ↔ s.themeSignal = Theme.light)

theorem mem_addClass (cs : List String) (c d : String) :
    c ∈ addClass cs d ↔ c ∈ cs ∨ c = d := by
  unfold addClass
  split
  · rename_i hd
    constructor
    · exact Or.inl
    · rintro (hc | rfl)
      · exact hc
      · exact hd
  · simp [List.mem_append]

theorem mem_removeClass (cs : List String) (c d : String) :
    c ∈ removeClass cs d ↔ c ∈ cs ∧ c ≠ d := by
  simp [removeClass]

/-- After `applyThemeToDocument`, exactly the marker class of the applied
theme is on the body. -/
theorem applyThemeToDocument_markers (body : ThemeDoc) (t : Theme) :
    ("dark-theme" ∈ (applyThemeToDocument body t).classes ↔ t = Theme.dark) ∧
    ("light-theme" ∈ (applyThemeToDocument body t).classes ↔ t = Theme.light) := by
  have hne : ("dark-theme" : String) ≠ "light-theme" := by decide
  cases t <;>
    simp [applyThemeToDocument, mem_removeClass, mem_addClass, hne, hne.symm]

/-- The registered reaction establishes the marker invariant from any
document state. -/
theorem markerInv_runThemeEffect (s : ThemeService) :
    markerInv (ThemeService.runThemeEffect s) :=
  applyThemeToDocument_markers s.body s.themeSignal

/-- C10: after construction and after every theme change (`setTheme`,
`toggleTheme`), exactly one of the two marker classes is on the document
body, and it is the one matching the current theme value. -/
theorem theme_marker_classes (stored : Option String) (prefersDark : Option Bool)
    (body : ThemeDoc) (s : ThemeService) (t : Theme) :
    markerInv (ThemeService.construct stored prefersDark body) ∧
    markerInv (ThemeService.setTheme s t) ∧
    markerInv (ThemeService.toggleTheme s) :=
  ⟨markerInv_runThemeEffect _, markerInv_runThemeEffect _, markerInv_runThemeEffect _⟩
